import Mathlib

/-!
Verification development for the impostor repository: a compiler from a
declarative HTTP-mock DSL to a dispatch table, with an assertion engine
(queries and predicates over JSON-like values), a template engine, and a
first-match-wins dispatcher.

Shallow embedding notes:
* `serde_json::Value` is embedded as `JsonValue`; its number type keeps the
  i64 / f64 distinction (`JNumber.i` / `JNumber.f`).  Rust `f64` values are
  modelled as exact rationals (`Rat`), and the `as i64` casts applied to
  `floor`/`ceil` results are modelled as the mathematical `Int.floor` /
  `Int.ceil` (no saturation, no NaN).
* JSON objects are modelled as association lists; `serde_json`'s map is
  keyed the same way, and none of the verified claims depend on key order.
* Rust panics (`todo!`, `unwrap` failures) are modelled by `Option`: a
  function that can panic returns `none` exactly on the panicking inputs.
* Regular expressions come from the external `regex` crate; a compiled
  regex is embedded as its matching function `String → Bool`.
-/

namespace Impostor

/-- Number part of an embedded `serde_json::Value`: either an i64
(`Number::is_i64` true) or an f64, modelled as an exact rational. -/
inductive JNumber where
  | i : Int → JNumber
  | f : Rat → JNumber
deriving DecidableEq

/-- Embedding of `serde_json::Value`. -/
inductive JsonValue where
  | null : JsonValue
  | bool : Bool → JsonValue
  | num : JNumber → JsonValue
  | str : String → JsonValue
  | arr : List JsonValue → JsonValue
  | obj : List (String × JsonValue) → JsonValue

mutual

/-- Structural equality of embedded JSON values, mirroring
`serde_json::Value`'s `PartialEq` (numbers compare by variant and value:
an i64 is never equal to an f64). -/
def jsonEq : JsonValue → JsonValue → Bool
  | .null, .null => true
  | .bool a, .bool b => a == b
  | .num a, .num b => a == b
  | .str a, .str b => a == b
  | .arr a, .arr b => jsonListEq a b
  | .obj a, .obj b => jsonObjEq a b
  | _, _ => false

/-- Element-wise equality of JSON arrays. -/
def jsonListEq : List JsonValue → List JsonValue → Bool
  | [], [] => true
  | x :: xs, y :: ys => jsonEq x y && jsonListEq xs ys
  | _, _ => false

/-- Field-wise equality of JSON objects (association lists). -/
def jsonObjEq : List (String × JsonValue) → List (String × JsonValue) → Bool
  | [], [] => true
  | (k1, v1) :: xs, (k2, v2) :: ys => k1 == k2 && jsonEq v1 v2 && jsonObjEq xs ys
  | _, _ => false

end

/-- Embedding of `serde_json::Value::as_str`: `Some` exactly on strings. -/
def JsonValue.asStr : JsonValue → Option String
  | .str s => some s
  | _ => none

/-- Embedding of the compiled `Number` enum of
`impostor_compiler_axum/src/asserts/predicate.rs` (`Integer(i64)`,
`Float(f64)`, `BigInteger(String)`). -/
inductive Number where
  | integer : Int → Number
  | float : Rat → Number
  | bigInteger : String → Number

/-- Embedding of the compiled `Predicate` enum of
`impostor_compiler_axum/src/asserts/predicate.rs`.  The `Match` variant
carries the external regex engine's matching function. -/
inductive Predicate where
  | equal : JsonValue → Predicate
  | notEqual : JsonValue → Predicate
  | greaterThan : Number → Predicate
  | greaterThanOrEqual : Number → Predicate
  | lessThan : Number → Predicate
  | lessThanOrEqual : Number → Predicate
  | startWith : String → Predicate
  | endWith : String → Predicate
  | contain : String → Predicate
  | includeP : JsonValue → Predicate
  | matchRe : (String → Bool) → Predicate
  | isInteger : Predicate
  | isFloat : Predicate
  | isBoolean : Predicate
  | isString : Predicate
  | isCollection : Predicate
  | exist : Predicate
  | isEmpty : Predicate

/-- Embedding of `compare_eq`. -/
def compare_eq (first second : JsonValue) : Bool :=
  jsonEq first second

/-- Embedding of `compare_ne`. -/
def compare_ne (first second : JsonValue) : Bool :=
  !jsonEq first second

/-- Embedding of `compare_gt` (predicate.rs lines 122-143).  `none` models
the `todo!()` panic on a `BigInteger` operand. -/
def compare_gt (first : Number) (second : JsonValue) : Option Bool :=
  match second with
  | .num n =>
    match first with
    | .integer p => some (match n with
        | .i a => decide (p > a)
        | .f a => decide (p > ⌊a⌋))
    | .float p => some (match n with
        | .i a => decide (⌈p⌉ > a)
        | .f a => decide (p > a))
    | .bigInteger _ => none
  | _ => some false

/-- Embedding of `compare_gteq` (predicate.rs lines 145-166). -/
def compare_gteq (first : Number) (second : JsonValue) : Option Bool :=
  match second with
  | .num n =>
    match first with
    | .integer p => some (match n with
        | .i a => decide (p ≥ a)
        | .f a => decide (p ≥ ⌊a⌋))
    | .float p => some (match n with
        | .i a => decide (⌈p⌉ ≥ a)
        | .f a => decide (p ≥ a))
    | .bigInteger _ => none
  | _ => some false

/-- Embedding of `compare_lt` (predicate.rs lines 168-189). -/
def compare_lt (first : Number) (second : JsonValue) : Option Bool :=
  match second with
  | .num n =>
    match first with
    | .integer p => some (match n with
        | .i a => decide (p < a)
        | .f a => decide (p < ⌈a⌉))
    | .float p => some (match n with
        | .i a => decide (⌊p⌋ < a)
        | .f a => decide (p < a))
    | .bigInteger _ => none
  | _ => some false

/-- Embedding of `compare_lteq` (predicate.rs lines 191-212). -/
def compare_lteq (first : Number) (second : JsonValue) : Option Bool :=
  match second with
  | .num n =>
    match first with
    | .integer p => some (match n with
        | .i a => decide (p ≤ a)
        | .f a => decide (p ≤ ⌈a⌉))
    | .float p => some (match n with
        | .i a => decide (⌊p⌋ ≤ a)
        | .f a => decide (p ≤ a))
    | .bigInteger _ => none
  | _ => some false

/-- Substring test on character lists, mirroring Rust `str::contains`. -/
def listContainsSub (hay needle : List Char) : Bool :=
  match hay with
  | [] => needle.isEmpty
  | _ :: t => needle.isPrefixOf hay || listContainsSub t needle

/-- Embedding of `compare_start_with`. -/
def compare_start_with (first : String) (second : JsonValue) : Bool :=
  match second with
  | .str s => s.startsWith first
  | _ => false

/-- Embedding of `compare_end_with`. -/
def compare_end_with (first : String) (second : JsonValue) : Bool :=
  match second with
  | .str s => s.endsWith first
  | _ => false

/-- Embedding of `compare_contain`. -/
def compare_contain (first : String) (second : JsonValue) : Bool :=
  match second with
  | .str s => listContainsSub s.data first.data
  | _ => false

/-- Embedding of `compare_include` (predicate.rs lines 235-241).  On an
object subject the source calls `first.as_str().unwrap()`; `none` models
the panic of that `unwrap` when the operand is not a string. -/
def compare_include (first second : JsonValue) : Option Bool :=
  match second with
  | .arr xs => some (xs.any (fun x => jsonEq x first))
  | .obj fields => (first.asStr).map (fun s => fields.any (fun kv => kv.1 == s))
  | _ => some false

/-- Embedding of `compare_match`; the regex is its matching function. -/
def compare_match (first : String → Bool) (second : JsonValue) : Bool :=
  match second with
  | .str s => first s
  | _ => false

/-- Embedding of `compare_is_integer` (`Number::is_i64`). -/
def compare_is_integer : JsonValue → Bool
  | .num (.i _) => true
  | _ => false

/-- Embedding of `compare_is_float` (`Number::is_f64`). -/
def compare_is_float : JsonValue → Bool
  | .num (.f _) => true
  | _ => false

/-- Embedding of `compare_is_boolean`. -/
def compare_is_boolean : JsonValue → Bool
  | .bool _ => true
  | _ => false

/-- Embedding of `compare_is_string`. -/
def compare_is_string : JsonValue → Bool
  | .str _ => true
  | _ => false

/-- Embedding of `compare_is_collection`. -/
def compare_is_collection : JsonValue → Bool
  | .arr _ => true
  | .obj _ => true
  | _ => false

/-- Embedding of `compare_exist`. -/
def compare_exist : JsonValue → Bool
  | .null => false
  | _ => true

/-- Embedding of `compare_is_empty`. -/
def compare_is_empty : JsonValue → Bool
  | .arr xs => xs.isEmpty
  | .obj fields => fields.isEmpty
  | _ => false

/-- Embedding of `Predicate::apply` (predicate.rs lines 88-112).  Note the
source's own comment: the four ordering predicates dispatch to the
comparison of the opposite name.  `none` models a panic. -/
def Predicate.apply (p : Predicate) (against : JsonValue) : Option Bool :=
  match p with
  | .equal v => some (compare_eq v against)
  | .notEqual v => some (compare_ne v against)
  | .greaterThan v => compare_lt v against
  | .greaterThanOrEqual v => compare_lteq v against
  | .lessThan v => compare_gt v against
  | .lessThanOrEqual v => compare_gteq v against
  | .startWith v => some (compare_start_with v against)
  | .endWith v => some (compare_end_with v against)
  | .contain v => some (compare_contain v against)
  | .includeP v => compare_include v against
  | .matchRe v => some (compare_match v against)
  | .isInteger => some (compare_is_integer against)
  | .isFloat => some (compare_is_float against)
  | .isBoolean => some (compare_is_boolean against)
  | .isString => some (compare_is_string against)
  | .isCollection => some (compare_is_collection against)
  | .exist => some (compare_exist against)
  | .isEmpty => some (compare_is_empty against)

/-- Embedding of `possibly_trim_surrounding_quotes` (lib.rs lines 85-96):
drop the first and last characters when they are a matching pair drawn
from single quote, double quote, or backtick.  A one-character string is
never trimmed (its `next_back` is `None` after `next`). -/
def possibly_trim_surrounding_quotes (s : String) : String :=
  match s.data with
  | c1 :: c2 :: cs =>
    let lastChar := (c2 :: cs).getLast (by simp)
    if (c1 = '\'' && lastChar = '\'') || (c1 = '"' && lastChar = '"') ||
        (c1 = '`' && lastChar = '`') then
      String.mk ((c2 :: cs).dropLast)
    else s
  | _ => s

/-! ### AST-side predicate values and their compilation -/

/-- Modelled from the spec: the `Number` of `impostor_core::ast` (the AST
crate is not under `src/`): integer, float, or arbitrary-precision big
integer carried as its source text (spec section 4.2). -/
inductive AstNumber where
  | integer : Int → AstNumber
  | float : Rat → AstNumber
  | bigInteger : String → AstNumber

/-- Modelled from the spec: `impostor_core::ast::PredicateValue`.  A
`String` operand carries its template's `encoded()` form, in which the
surrounding quote/backtick delimiters are still present (spec section 4.1:
the compiler, not the parser, trims them).  `other` stands for the
remaining grammar variants, all rejected by this compiler. -/
inductive AstPredicateValue where
  | string : String → AstPredicateValue
  | number : AstNumber → AstPredicateValue
  | bool : Bool → AstPredicateValue
  | null : AstPredicateValue
  | regex : (String → Bool) → AstPredicateValue
  | other : AstPredicateValue

/-- Embedding of `AssertCompilationError` (asserts/mod.rs lines 13-17). -/
inductive AssertCompilationError where
  | invalidQueryType : AssertCompilationError
  | invalidPredicate : AssertCompilationError
  | invalidPredicateValue : String → AssertCompilationError

/-- Embedding of `try_into_serde_value` (predicate.rs lines 291-315):
string operands get one layer of surrounding quotes trimmed; `none` models
the `todo!` panic on a big-integer operand. -/
def try_into_serde_value (value : AstPredicateValue) :
    Option (Except AssertCompilationError JsonValue) :=
  match value with
  | .string v => some (.ok (.str (possibly_trim_surrounding_quotes v)))
  | .number n =>
    match n with
    | .float q => some (.ok (.num (.f q)))
    | .integer i => some (.ok (.num (.i i)))
    | .bigInteger _ => none
  | .bool b => some (.ok (.bool b))
  | .null => some (.ok .null)
  | _ => some (.error (.invalidPredicateValue "unsupported type"))

/-- Embedding of `try_into_number` (predicate.rs lines 317-330). -/
def try_into_number (value : AstPredicateValue) :
    Except AssertCompilationError Number :=
  match value with
  | .number n =>
    match n with
    | .float q => .ok (.float q)
    | .integer i => .ok (.integer i)
    | .bigInteger s => .ok (.bigInteger s)
  | _ => .error (.invalidPredicateValue "expected number")

/-- Embedding of `try_into_string` (predicate.rs lines 332-341): the
operand's `encoded()` form is used verbatim, with no quote trimming. -/
def try_into_string (value : AstPredicateValue) :
    Except AssertCompilationError String :=
  match value with
  | .string v => .ok v
  | _ => .error (.invalidPredicateValue "expected string")

/-- Embedding of `try_into_regex` (predicate.rs lines 343-352). -/
def try_into_regex (value : AstPredicateValue) :
    Except AssertCompilationError (String → Bool) :=
  match value with
  | .regex m => .ok m
  | _ => .error (.invalidPredicateValue "expected regex")

/-- Modelled from the spec: `impostor_core::ast::PredicateFuncValue`,
restricted to the payload each variant hands to the compiler.  `other`
stands for the remaining grammar variants (rejected with
`InvalidPredicate`). -/
inductive AstPredicateFuncValue where
  | equal : AstPredicateValue → AstPredicateFuncValue
  | notEqual : AstPredicateValue → AstPredicateFuncValue
  | greaterThan : AstPredicateValue → AstPredicateFuncValue
  | greaterThanOrEqual : AstPredicateValue → AstPredicateFuncValue
  | lessThan : AstPredicateValue → AstPredicateFuncValue
  | lessThanOrEqual : AstPredicateValue → AstPredicateFuncValue
  | startWith : AstPredicateValue → AstPredicateFuncValue
  | endWith : AstPredicateValue → AstPredicateFuncValue
  | contain : AstPredicateValue → AstPredicateFuncValue
  | includeV : AstPredicateValue → AstPredicateFuncValue
  | matchV : AstPredicateValue → AstPredicateFuncValue
  | isInteger : AstPredicateFuncValue
  | isFloat : AstPredicateFuncValue
  | isBoolean : AstPredicateFuncValue
  | isString : AstPredicateFuncValue
  | isCollection : AstPredicateFuncValue
  | exist : AstPredicateFuncValue
  | isEmpty : AstPredicateFuncValue
  | other : AstPredicateFuncValue

/-- Embedding of `TryFrom<AstPredicate> for Predicate` (predicate.rs lines
40-86), on the `predicate_func.value` payload.  `none` models the
compile-time `todo!` panic on big-integer `Equal`/`NotEqual`/`Include`
operands. -/
def compilePredicateFunc (v : AstPredicateFuncValue) :
    Option (Except AssertCompilationError Predicate) :=
  match v with
  | .equal value => (try_into_serde_value value).map (fun r => r.map Predicate.equal)
  | .notEqual value => (try_into_serde_value value).map (fun r => r.map Predicate.notEqual)
  | .greaterThan value => some ((try_into_number value).map Predicate.greaterThan)
  | .greaterThanOrEqual value => some ((try_into_number value).map Predicate.greaterThanOrEqual)
  | .lessThan value => some ((try_into_number value).map Predicate.lessThan)
  | .lessThanOrEqual value => some ((try_into_number value).map Predicate.lessThanOrEqual)
  | .startWith value => some ((try_into_string value).map Predicate.startWith)
  | .endWith value => some ((try_into_string value).map Predicate.endWith)
  | .contain value => some ((try_into_string value).map Predicate.contain)
  | .includeV value => (try_into_serde_value value).map (fun r => r.map Predicate.includeP)
  | .matchV value => some ((try_into_regex value).map Predicate.matchRe)
  | .isInteger => some (.ok .isInteger)
  | .isFloat => some (.ok .isFloat)
  | .isBoolean => some (.ok .isBoolean)
  | .isString => some (.ok .isString)
  | .isCollection => some (.ok .isCollection)
  | .exist => some (.ok .exist)
  | .isEmpty => some (.ok .isEmpty)
  | .other => some (.error .invalidPredicate)

/-! ### Template engine -/

/-- Modelled from the spec: an element of `impostor_core::ast::Template`:
a literal fragment (with decoded `value` and source-form `encoded` text)
or a variable reference carrying the variable's name. -/
inductive TemplateElement where
  | strE : String → String → TemplateElement
  | expr : String → TemplateElement

/-- Modelled from the spec: `impostor_core::ast::Template`: an optional
quote/backtick delimiter and an ordered element list (source spans
dropped). -/
structure Template where
  delimiter : Option Char
  elements : List TemplateElement

/-- Modelled from the spec: `Template::encoded()` of `impostor_core`: the
source form of the template, surrounding delimiters included (this is why
the compiler must trim them, spec section 4.1). -/
def Template.encoded (t : Template) : String :=
  let inner := t.elements.foldl
    (fun acc e => acc ++ match e with
      | .strE _ enc => enc
      | .expr n => "\x7b\x7b" ++ n ++ "\x7d\x7d") ""
  match t.delimiter with
  | some d => String.mk [d] ++ inner ++ String.mk [d]
  | none => inner

/-- Embedding of `TemplateExecutionError` (template.rs lines 7-9). -/
inductive TemplateExecutionError where
  | unknownVariable : String → TemplateExecutionError
deriving DecidableEq

/-- Display form of a `TemplateExecutionError` (template.rs lines 11-19). -/
def TemplateExecutionError.message : TemplateExecutionError → String
  | .unknownVariable name => "unknown variable: " ++ name

/-- Lookup in the template-execution context (a string-keyed string map,
embedded as an association list). -/
def lookupCtx (ctx : List (String × String)) (name : String) : Option String :=
  (ctx.find? (fun kv => kv.1 == name)).map (fun kv => kv.2)

/-- Embedding of the element loop of `execute` (template.rs lines 60-82):
literal fragments append their `encoded` text; a variable reference is
looked up in the context and missing variables abort with
`UnknownVariable`. -/
def executeElems (ctx : List (String × String)) :
    List TemplateElement → String → Except TemplateExecutionError String
  | [], acc => .ok acc
  | .strE _ enc :: rest, acc => executeElems ctx rest (acc ++ enc)
  | .expr n :: rest, acc =>
    match lookupCtx ctx n with
    | some v => executeElems ctx rest (acc ++ v)
    | none => .error (.unknownVariable n)

/-- Embedding of `execute` (template.rs lines 60-82). -/
def executeTemplate (t : Template) (ctx : List (String × String)) :
    Except TemplateExecutionError String :=
  executeElems ctx t.elements ""

/-- Embedding of `StringOrTemplate` (template.rs lines 24-27). -/
inductive StringOrTemplate where
  | string : String → StringOrTemplate
  | template : Template → StringOrTemplate

/-- Whether a template element is a variable reference
(`TemplateElement::Expression`). -/
def TemplateElement.isExpr : TemplateElement → Bool
  | .expr _ => true
  | _ => false

/-- Embedding of `StringOrTemplate::from_ast_template` (template.rs lines
41-51): templates with a variable reference stay structured, the rest
collapse to a quote-trimmed static string. -/
def StringOrTemplate.from_ast_template (t : Template) : StringOrTemplate :=
  if t.elements.any TemplateElement.isExpr then
    .template t
  else
    .string (possibly_trim_surrounding_quotes t.encoded)

/-- Embedding of `StringOrTemplate::execute` (template.rs lines 33-38):
the context supplied at request time is always the empty mapping. -/
def StringOrTemplate.execute : StringOrTemplate → Except TemplateExecutionError String
  | .string s => .ok s
  | .template t => executeTemplate t []

/-! ### Requests and queries -/

/-- Embedding of the incoming request, as far as this compiler reads it.
The external crates at its boundary are represented by their outcomes:
`headers` holds the raw header bytes (the `http` crate's `HeaderMap`,
names lowercased), `cookies` the jar parsed from the cookie headers by the
external `cookie` crate, and `queryString` the outcome of the external
`serde_qs` parse of the raw query string (`none` when the URI has no query
string, `some (.error msg)` when `serde_qs` rejects it). -/
structure Request where
  method : String
  path : String
  headers : List (String × List Nat)
  cookies : List (String × String)
  queryString : Option (Except String (List (String × JsonValue)))

/-- Header lookup (`HeaderMap::get`).  The `http` crate stores and looks
up header names case-insensitively by normalizing them to lowercase;
header names are taken here in that normalized form, so lookup is plain
equality. -/
def headerGet (req : Request) (name : String) : Option (List Nat) :=
  (req.headers.find? (fun kv => kv.1 == name)).map (fun kv => kv.2)

/-- The `http` crate's `HeaderValue::to_str`: succeeds exactly when every
byte is visible ASCII or horizontal tab. -/
def header_value_to_str (bytes : List Nat) : Option String :=
  if bytes.all (fun b => b == 9 || (decide (32 ≤ b) && decide (b < 127))) then
    some (String.mk (bytes.map Char.ofNat))
  else none

/-- Embedding of the compiled `Query` enum (asserts/query.rs lines
11-19). -/
inductive Query where
  | path : Query
  | header : String → Query
  | cookie : String → Query
  | body : Query
  | jsonpath : String → Query
  | queryParam : String → Query

/-- Embedding of `QueryApplicationError` (asserts/query.rs lines 45-49);
the invalid-header case is tagged with the header name. -/
inductive QueryApplicationError where
  | invalidHeaderValue : String → QueryApplicationError
  | invalidQueryParams : String → QueryApplicationError
deriving DecidableEq

/-- Embedding of `Query::apply` (asserts/query.rs lines 66-121).  `none`
models the `todo!()` panics on the `Body` and `Jsonpath` variants. -/
def Query.apply (q : Query) (req : Request) :
    Option (Except QueryApplicationError JsonValue) :=
  match q with
  | .path => some (.ok (.str req.path))
  | .header name =>
    match headerGet req name with
    | some bytes =>
      match header_value_to_str bytes with
      | some s => some (.ok (.str s))
      | none => some (.error (.invalidHeaderValue name))
    | none => some (.ok .null)
  | .cookie name =>
    some (.ok (match req.cookies.find? (fun kv => kv.1 == name) with
      | some kv => .str kv.2.trim
      | none => .null))
  | .body => none
  | .jsonpath _ => none
  | .queryParam name =>
    match req.queryString with
    | none => some (.ok .null)
    | some (.error e) =>
      some (.error (.invalidQueryParams ("failed to parse query params: " ++ e)))
    | some (.ok params) =>
      some (.ok (match params.find? (fun kv => kv.1 == name) with
        | some kv => kv.2
        | none => .null))

/-! ### Asserts -/

/-- Embedding of `AssertionError` (asserts/mod.rs lines 34-36). -/
inductive AssertionError where
  | invalidQueryValue : QueryApplicationError → AssertionError
deriving DecidableEq

/-- Embedding of the compiled `Assert` struct (asserts/mod.rs lines
49-53). -/
structure Assert where
  query : Query
  predicate : Predicate
  not : Bool

/-- Embedding of `Assert::apply` (asserts/mod.rs lines 87-100): evaluate
the query, propagate its error as an assertion error, apply the predicate,
then invert when `not` is set.  `none` models a panic in either stage. -/
def Assert.apply (a : Assert) (req : Request) :
    Option (Except AssertionError Bool) :=
  match a.query.apply req with
  | none => none
  | some (.error e) => some (.error (.invalidQueryValue e))
  | some (.ok v) =>
    match a.predicate.apply v with
    | none => none
    | some r => some (.ok (if a.not then !r else r))

/-! ### Compiled entries, matching, and response rendering -/

/-- Embedding of the compiled `Entry` struct (entry.rs lines 45-57); the
status code is the numeric value of the validated `StatusCode`. -/
structure Entry where
  path : String
  method : String
  asserts : List Assert
  status_code : Nat
  headers : List (String × StringOrTemplate)
  body : Option StringOrTemplate

/-- Assert loop of `Entry::matches` (entry.rs lines 186-192):
`all(|a| a.apply(request).is_ok_and(|r| r))`, short-circuiting, with
`none` propagating a panic from an evaluated assert. -/
def matchesAux (req : Request) : List Assert → Option Bool
  | [] => some true
  | a :: rest =>
    match a.apply req with
    | none => none
    | some (.ok true) => matchesAux req rest
    | some (.ok false) => some false
    | some (.error _) => some false

/-- Embedding of `Entry::matches` (entry.rs lines 186-192). -/
def Entry.matches (e : Entry) (req : Request) : Option Bool :=
  matchesAux req e.asserts

/-- A response as produced by an entry handler: status code, header list,
body text. -/
abbrev Response : Type := Nat × List (String × String) × String

/-- Decidable equality for `Except` results, so that concrete assert
evaluations can be checked by `decide`. -/
instance {ε α : Type} [DecidableEq ε] [DecidableEq α] : DecidableEq (Except ε α)
  | .error a, .error b =>
    if h : a = b then .isTrue (by rw [h])
    else .isFalse (fun hc => h (Except.error.inj hc))
  | .error _, .ok _ => .isFalse Except.noConfusion
  | .ok _, .error _ => .isFalse Except.noConfusion
  | .ok a, .ok b =>
    if h : a = b then .isTrue (by rw [h])
    else .isFalse (fun hc => h (Except.ok.inj hc))

/-- The `http` crate's `HeaderValue::from_str` validity test: every
character must be horizontal tab or have code point at least 32 and other
than 127 (multi-byte UTF-8 characters encode to bytes that always pass the
byte-level check). -/
def is_valid_header_value (s : String) : Bool :=
  s.data.all (fun c => c == '\t' || (decide (32 ≤ c.toNat) && decide (c.toNat ≠ 127)))

/-- Header rendering loop of `Entry::handler` (entry.rs lines 134-155):
execute each header's template in order, wrap rendered values as header
values, and stop at the first failure with the displayed `InternalError`
text ("internal error: " followed by the inner error's message; an invalid
rendered header value displays the `http` crate's "failed to parse header
value"). -/
def render_headers : List (String × StringOrTemplate) →
    Except String (List (String × String))
  | [] => .ok []
  | (k, v) :: rest =>
    match v.execute with
    | .ok hv =>
      if is_valid_header_value hv then
        (render_headers rest).map (fun l => (k, hv) :: l)
      else .error ("internal error: " ++ "failed to parse header value")
    | .error e => .error ("internal error: " ++ e.message)

/-- Embedding of `Entry::handler` (entry.rs lines 131-179): any header
failure yields a 500 with empty headers and a "template error: ..." body;
otherwise the body template (when present) is executed, its failure
likewise yielding a 500 that discards the rendered headers; otherwise the
compiled status, rendered headers and rendered (or empty) body. -/
def Entry.handler (e : Entry) (_req : Request) : Response :=
  match render_headers e.headers with
  | .error msg => (500, [], "template error: " ++ msg)
  | .ok hdrs =>
    match e.body with
    | some b =>
      match b.execute with
      | .ok s => (e.status_code, hdrs, s)
      | .error te => (500, [], "template error: " ++ te.message)
    | none => (e.status_code, hdrs, "")

/-! ### Dispatch table construction and the per-route handler -/

/-- The (path, method) key an entry is grouped under (lib.rs lines
34-35). -/
def routeKey (e : Entry) : String × String :=
  (e.path, e.method)

/-- One step of the grouping loop of `compile_ast` (lib.rs lines 33-40):
`routes_to_entries.entry((route, method)).or_insert(Vec::new()).push(entry)`,
on a map embedded as an association list. -/
def insert_entry (tbl : List ((String × String) × List Entry)) (e : Entry) :
    List ((String × String) × List Entry) :=
  if tbl.any (fun kv => decide (kv.1 = routeKey e)) then
    tbl.map (fun kv => if kv.1 = routeKey e then (kv.1, kv.2 ++ [e]) else kv)
  else tbl ++ [(routeKey e, [e])]

/-- The grouping loop of `compile_ast` (lib.rs lines 31-40). -/
def build_table (entries : List Entry) : List ((String × String) × List Entry) :=
  entries.foldl insert_entry []

/-- Key lookup in the dispatch table (the router's route/method match
selects the bucket registered for the request's (path, method)). -/
def lookup_bucket (tbl : List ((String × String) × List Entry))
    (k : String × String) : Option (List Entry) :=
  (tbl.find? (fun kv => decide (kv.1 = k))).map (fun kv => kv.2)

/-- The not-found response of the per-route handler (lib.rs line 60):
status 404, empty headers, empty body. -/
def notFoundResponse : Response :=
  (404, [], "")

/-- The per-route handler loop of `compile_ast` (lib.rs lines 53-61):
scan the bucket in order, answer with the first matching entry's rendered
response, else 404.  `none` propagates a panic from matching. -/
def serve_bucket : List Entry → Request → Option Response
  | [], _ => some notFoundResponse
  | e :: rest, req =>
    match e.matches req with
    | none => none
    | some true => some (e.handler req)
    | some false => serve_bucket rest req

/-- The dispatcher: build the table from the compiled entries, look up the
request's (path, method) bucket (no bucket means the router answers 404),
then scan the bucket (lib.rs lines 31-63). -/
def dispatch (entries : List Entry) (req : Request) : Option Response :=
  match lookup_bucket (build_table entries) (req.path, req.method) with
  | none => some notFoundResponse
  | some bucket => serve_bucket bucket req

/-- The entries declared for the request's (path, method) pair, in
declaration order. -/
def entries_for (entries : List Entry) (req : Request) : List Entry :=
  entries.filter (fun e => decide (routeKey e = (req.path, req.method)))

/-! ### Parser: section names (impostor_core/src/parser/sections.rs) -/

/-- A (line, column) source position. -/
structure Pos where
  line : Nat
  column : Nat
deriving DecidableEq

/-- Modelled from the spec: the parser's Reader (impostor_core's reader.rs
is not under `src/`): a cursor over the source text exposing the current
position; embedded as the remaining input plus the position reached. -/
structure Reader where
  input : List Char
  pos : Pos

/-- Position update after consuming one character: a newline starts the
next line at column 1, anything else advances the column. -/
def advancePos (p : Pos) (c : Char) : Pos :=
  if c = '\n' then ⟨p.line + 1, 1⟩ else ⟨p.line, p.column + 1⟩

/-- Modelled from the spec: `Reader::read_while` consumes the longest
prefix satisfying the predicate and returns it with the rest of the input
and the advanced position. -/
def read_while_list (pred : Char → Bool) :
    List Char → Pos → List Char × List Char × Pos
  | [], p => ([], [], p)
  | c :: rest, p =>
    if pred c then
      let res := read_while_list pred rest (advancePos p c)
      (c :: res.1, res.2.1, res.2.2)
    else ([], c :: rest, p)

/-- `read_while` on a Reader. -/
def read_while (pred : Char → Bool) (r : Reader) : List Char × Reader :=
  let res := read_while_list pred r.input r.pos
  (res.1, ⟨res.2.1, res.2.2⟩)

/-- Embedding of the parse-error causes reached from sections.rs:
`Expecting { value }` and `ResponseSectionName { name }`. -/
inductive ParseError where
  | Expecting : String → ParseError
  | ResponseSectionName : String → ParseError
deriving DecidableEq

/-- A parse failure: source position, recoverable flag, cause (the error
contract of spec section 4.1). -/
structure PError where
  pos : Pos
  recoverable : Bool
  inner : ParseError
deriving DecidableEq

/-- Literal consumption on the character level: consume exactly the given
characters or fail. -/
def literal_list : List Char → Reader → Option Reader
  | [], r => some r
  | c :: cs, r =>
    match r.input with
    | d :: rest => if d = c then literal_list cs ⟨rest, advancePos r.pos d⟩ else none
    | [] => none

/-- Modelled from the spec: `try_literal` of the parser's primitives (not
under `src/`); behavior pinned by the sections.rs tests: on mismatch it
fails recoverably with `Expecting` the literal at the starting
position. -/
def try_literal (s : String) (r : Reader) : Except PError Reader :=
  match literal_list s.data r with
  | some r1 => .ok r1
  | none => .error ⟨r.pos, true, .Expecting s⟩

/-- Embedding of `section_name` (sections.rs lines 62-75): a `[`, then
one-or-more alphanumerics (an empty name fails recoverably, since the
input could be an empty JSON array body), then a `]`. -/
def section_name (r : Reader) : Except PError (String × Reader) :=
  let pos := r.pos
  match try_literal "[" r with
  | .error e => .error e
  | .ok r1 =>
    let res := read_while Char.isAlphanum r1
    if res.1 = [] then
      .error ⟨pos, true, .Expecting "a valid section name"⟩
    else
      match try_literal "]" res.2 with
      | .error e => .error e
      | .ok r3 => .ok (String.mk res.1, r3)

/-- Modelled from the spec: `zero_or_more_spaces` — consume spaces and
tabs. -/
def skip_spaces (r : Reader) : Reader :=
  (read_while (fun c => c == ' ' || c == '\t') r).2

/-- Modelled from the spec: the optional comment of a line terminator — a
`#` consumes the rest of the line. -/
def skip_comment (r : Reader) : Reader :=
  match r.input with
  | '#' :: _ => (read_while (fun c => c ≠ '\n') r).2
  | _ => r

/-- Modelled from the spec: `line_terminator` of the parser's primitives —
optional spaces, an optional comment, then a newline or end of input;
anything else fails non-recoverably (behavior pinned by the sections.rs
tests). -/
def line_terminator (r : Reader) : Except PError Reader :=
  let r2 := skip_comment (skip_spaces r)
  match r2.input with
  | [] => .ok r2
  | '\n' :: rest => .ok ⟨rest, advancePos r2.pos '\n'⟩
  | _ => .error ⟨r2.pos, false, .Expecting "line_terminator"⟩

/-- Fuelled loop for `optional_line_terminators`: consume whole blank or
comment lines while they last, leaving the reader untouched when the next
line is neither. -/
def optional_line_terminators_fuel : Nat → Reader → Reader
  | 0, r => r
  | n + 1, r =>
    let r2 := skip_comment (skip_spaces r)
    match r2.input with
    | '\n' :: rest => optional_line_terminators_fuel n ⟨rest, advancePos r2.pos '\n'⟩
    | _ => r

/-- Modelled from the spec: `optional_line_terminators` — skip leading
blank and comment lines. -/
def optional_line_terminators (r : Reader) : Reader :=
  optional_line_terminators_fuel r.input.length r

/-- Embedding of `request_section` (sections.rs lines 33-60), with the
section bodies abstracted: the `[Captures]` and `[Asserts]` body parsers
live in parser files that are not under `src/`, and the claim settled here
is independent of them, so they are taken as parameters.  After the
section name parses, an unrecognized name fails non-recoverably with
`ResponseSectionName` at `(start.line, start.column + 1)` — the position
of the name itself, one past the opening bracket. -/
def request_section_core (capturesBody assertsBody : Reader → Except PError Reader)
    (r : Reader) : Except PError Reader :=
  let r0 := optional_line_terminators r
  let r1 := skip_spaces r0
  let start := r1.pos
  match section_name r1 with
  | .error e => .error e
  | .ok (name, r2) =>
    match line_terminator r2 with
    | .error e => .error e
    | .ok r3 =>
      if name = "Captures" then capturesBody r3
      else if name = "Asserts" then assertsBody r3
      else .error ⟨⟨start.line, start.column + 1⟩, false, .ResponseSectionName name⟩

/-! ## Theorems -/

/-- Spec-side transcription of the claimed rounding-table row for
GreaterThan (spec section 4.3): true iff `P < A` for same kinds,
`P < ceil(A)` for integer P / float A, `ceil(P) < A` for float P /
integer A.  Big-integer operands are outside the claim's scope. -/
def specTable_gt : Number → JNumber → Bool
  | .integer p, .i a => decide (p < a)
  | .integer p, .f a => decide (p < ⌈a⌉)
  | .float p, .i a => decide (⌈p⌉ < a)
  | .float p, .f a => decide (p < a)
  | .bigInteger _, _ => false

/-- Spec-side transcription of the claimed rounding-table row for
GreaterThanOrEqual: true iff `P ≤ A` for same kinds, `P ≤ floor(A)` for
integer P / float A, `floor(P) ≤ A` for float P / integer A. -/
def specTable_gteq : Number → JNumber → Bool
  | .integer p, .i a => decide (p ≤ a)
  | .integer p, .f a => decide (p ≤ ⌊a⌋)
  | .float p, .i a => decide (⌊p⌋ ≤ a)
  | .float p, .f a => decide (p ≤ a)
  | .bigInteger _, _ => false

/-- C1 counterexample: the spec's rounding table does not hold of the
code in two of its mixed-kind cells.  With float operand P = 10.5 and
integer subject A = 11, the code's GreaterThan compares `floor(P) < A`
(true) while the claimed table's cell `ceil(P) < A` says false; with
integer operand P = 11 and float subject A = 10.5, the code's
GreaterThanOrEqual compares `P ≤ ceil(A)` (true) while the claimed
table's cell `P ≤ floor(A)` says false. -/
theorem c1_rounding_table_counterexample :
    Predicate.apply (.greaterThan (.float (21/2))) (.num (.i 11)) = some true ∧
    specTable_gt (.float (21/2)) (.i 11) = false ∧
    Predicate.apply (.greaterThanOrEqual (.integer 11)) (.num (.f (21/2))) = some true ∧
    specTable_gteq (.integer 11) (.f (21/2)) = false := by
  have hfl : (⌊(21/2 : Rat)⌋ : Int) = 10 := by
    rw [Int.floor_eq_iff]
    norm_num
  have hce : (⌈(21/2 : Rat)⌉ : Int) = 11 := by
    rw [Int.ceil_eq_iff]
    norm_num
  refine ⟨?_, ?_, ?_, ?_⟩
  · simp [Predicate.apply, compare_lt, hfl]
  · simp [specTable_gt, hce]
  · simp [Predicate.apply, compare_lteq, hce]
  · simp [specTable_gteq, hfl]

/-- C1 (amended): the numeric comparison predicates follow the spec's
rounding table with two cells corrected — GreaterThan with float P and
integer A compares `floor(P) < A` (not `ceil(P) < A`), and
GreaterThanOrEqual with integer P and float A compares `P ≤ ceil(A)` (not
`P ≤ floor(A)`); all other cells are as claimed (direct comparison for
same kinds, the stated floor/ceil comparisons otherwise). -/
theorem c1_numeric_comparison_amended (pI aI : Int) (pF aF : Rat) :
    (Predicate.apply (.greaterThan (.integer pI)) (.num (.i aI)) = some (decide (pI < aI)) ∧
     Predicate.apply (.greaterThan (.integer pI)) (.num (.f aF)) = some (decide (pI < ⌈aF⌉)) ∧
     Predicate.apply (.greaterThan (.float pF)) (.num (.i aI)) = some (decide (⌊pF⌋ < aI)) ∧
     Predicate.apply (.greaterThan (.float pF)) (.num (.f aF)) = some (decide (pF < aF))) ∧
    (Predicate.apply (.greaterThanOrEqual (.integer pI)) (.num (.i aI)) = some (decide (pI ≤ aI)) ∧
     Predicate.apply (.greaterThanOrEqual (.integer pI)) (.num (.f aF)) = some (decide (pI ≤ ⌈aF⌉)) ∧
     Predicate.apply (.greaterThanOrEqual (.float pF)) (.num (.i aI)) = some (decide (⌊pF⌋ ≤ aI)) ∧
     Predicate.apply (.greaterThanOrEqual (.float pF)) (.num (.f aF)) = some (decide (pF ≤ aF))) ∧
    (Predicate.apply (.lessThan (.integer pI)) (.num (.i aI)) = some (decide (pI > aI)) ∧
     Predicate.apply (.lessThan (.integer pI)) (.num (.f aF)) = some (decide (pI > ⌊aF⌋)) ∧
     Predicate.apply (.lessThan (.float pF)) (.num (.i aI)) = some (decide (⌈pF⌉ > aI)) ∧
     Predicate.apply (.lessThan (.float pF)) (.num (.f aF)) = some (decide (pF > aF))) ∧
    (Predicate.apply (.lessThanOrEqual (.integer pI)) (.num (.i aI)) = some (decide (pI ≥ aI)) ∧
     Predicate.apply (.lessThanOrEqual (.integer pI)) (.num (.f aF)) = some (decide (pI ≥ ⌊aF⌋)) ∧
     Predicate.apply (.lessThanOrEqual (.float pF)) (.num (.i aI)) = some (decide (⌈pF⌉ ≥ aI)) ∧
     Predicate.apply (.lessThanOrEqual (.float pF)) (.num (.f aF)) = some (decide (pF ≥ aF))) :=
  ⟨⟨rfl, rfl, rfl, rfl⟩, ⟨rfl, rfl, rfl, rfl⟩, ⟨rfl, rfl, rfl, rfl⟩, ⟨rfl, rfl, rfl, rfl⟩⟩

/-- Whether a JSON value is an object. -/
def JsonValue.isObjB : JsonValue → Bool
  | .obj _ => true
  | _ => false

/-- Whether a JSON value is a string. -/
def JsonValue.isStrB : JsonValue → Bool
  | .str _ => true
  | _ => false

/-- C10: applying the Includes predicate is partial exactly on object
subjects paired with non-string operands — there `Predicate::apply` panics
(the `as_str().unwrap()` of `compare_include`), modelled by `none`; every
other subject/operand shape yields a boolean. -/
theorem c10_includes_partiality (v a : JsonValue) :
    Predicate.apply (.includeP v) a = none ↔
      (JsonValue.isObjB a = true ∧ JsonValue.isStrB v = false) := by
  cases a <;> cases v <;>
    simp [Predicate.apply, compare_include, JsonValue.asStr, JsonValue.isObjB,
      JsonValue.isStrB]

/-- C8: a Header(name) query yields the header value as a string when the
header is present with text-representable bytes, the null (absent) value
when it is missing, and an error tagged with the header name when its
bytes are not representable as text. -/
theorem c8_header_query_cases (name : String) (req : Request) :
    match headerGet req name with
    | none => Query.apply (.header name) req = some (.ok .null)
    | some bytes =>
      match header_value_to_str bytes with
      | some s => Query.apply (.header name) req = some (.ok (.str s))
      | none => Query.apply (.header name) req = some (.error (.invalidHeaderValue name)) := by
  cases h : headerGet req name with
  | none => simp [Query.apply, h]
  | some bytes =>
    cases h2 : header_value_to_str bytes with
    | none => simp [Query.apply, h, h2]
    | some s => simp [Query.apply, h, h2]

/-- C7: whenever the underlying query application succeeds, the assert
with `negate` set returns exactly the boolean negation of the assert with
`negate` unset (a panic in the predicate propagates identically on both
sides). -/
theorem c7_negate_inverts (q : Query) (p : Predicate) (req : Request)
    (v : JsonValue) (h : q.apply req = some (.ok v)) :
    Assert.apply ⟨q, p, true⟩ req =
      (Assert.apply ⟨q, p, false⟩ req).map (Except.map Bool.not) := by
  simp only [Assert.apply, h]
  cases hp : p.apply v <;> simp [Except.map]

/-- A sample request used to instantiate hypotheses at concrete inputs. -/
def sampleReq : Request :=
  ⟨"GET", "/hello", [("x-foo", [98, 97, 114])], [], none⟩

/-- C7 witness: the negation law evaluated at a concrete assert (a Path
query with an IsString predicate) and a concrete request. -/
theorem c7_negate_inverts_witness :
    Assert.apply ⟨.path, .isString, true⟩ sampleReq =
      (Assert.apply ⟨.path, .isString, false⟩ sampleReq).map (Except.map Bool.not) :=
  c7_negate_inverts .path .isString sampleReq (.str "/hello") rfl

/-- C6 counterexample: the string operands of StartsWith, EndsWith and
Contains are compiled through `try_into_string`, which performs no quote
trimming: a delimited operand `'foo'` stays `'foo'` instead of becoming
`foo`, contradicting the claim that every string operand is trimmed. -/
theorem c6_trim_counterexample :
    compilePredicateFunc (.startWith (.string "'foo'")) = some (.ok (.startWith "'foo'")) ∧
    compilePredicateFunc (.endWith (.string "'foo'")) = some (.ok (.endWith "'foo'")) ∧
    compilePredicateFunc (.contain (.string "'foo'")) = some (.ok (.contain "'foo'")) ∧
    possibly_trim_surrounding_quotes "'foo'" = "foo" ∧
    ("'foo'" : String) ≠ "foo" := by
  refine ⟨rfl, rfl, rfl, ?_, by decide⟩
  simp [possibly_trim_surrounding_quotes]

/-- C6 (amended): during predicate-value compilation, exactly one layer of
surrounding quote/backtick delimiters is stripped from the string operands
of Equal, NotEqual and Includes (compiled via `try_into_serde_value`),
while the string operands of StartsWith, EndsWith and Contains (compiled
via `try_into_string`) are used verbatim, delimiters included. -/
theorem c6_trim_amended (s : String) :
    compilePredicateFunc (.equal (.string s)) =
      some (.ok (.equal (.str (possibly_trim_surrounding_quotes s)))) ∧
    compilePredicateFunc (.notEqual (.string s)) =
      some (.ok (.notEqual (.str (possibly_trim_surrounding_quotes s)))) ∧
    compilePredicateFunc (.includeV (.string s)) =
      some (.ok (.includeP (.str (possibly_trim_surrounding_quotes s)))) ∧
    compilePredicateFunc (.startWith (.string s)) = some (.ok (.startWith s)) ∧
    compilePredicateFunc (.endWith (.string s)) = some (.ok (.endWith s)) ∧
    compilePredicateFunc (.contain (.string s)) = some (.ok (.contain s)) :=
  ⟨rfl, rfl, rfl, rfl, rfl, rfl⟩

/-- The name carried by a variable-reference element, if any. -/
def TemplateElement.varName : TemplateElement → Option String
  | .expr n => some n
  | .strE _ _ => none

/-- The first variable referenced by a template, if any. -/
def Template.firstVariable (t : Template) : Option String :=
  t.elements.findSome? TemplateElement.varName

/-- A template has no variable reference exactly when no element yields a
variable name. -/
theorem findSome_varName_none_iff (l : List TemplateElement) :
    l.findSome? TemplateElement.varName = none ↔ l.any TemplateElement.isExpr = false := by
  induction l with
  | nil => simp
  | cons e rest ih =>
    cases e <;> simp [TemplateElement.varName, TemplateElement.isExpr, ih]

/-- With the empty context, the element loop fails with the first variable
reference it meets, whatever literal text was accumulated before it. -/
theorem executeElems_empty_ctx_err (l : List TemplateElement) (v : String)
    (h : l.findSome? TemplateElement.varName = some v) (acc : String) :
    executeElems [] l acc = .error (.unknownVariable v) := by
  induction l generalizing acc with
  | nil => simp at h
  | cons e rest ih =>
    cases e with
    | strE val enc =>
      simp [TemplateElement.varName] at h
      simpa [executeElems] using ih h _
    | expr n =>
      simp [TemplateElement.varName] at h
      subst h
      simp [executeElems, lookupCtx]

/-- C9: because the request-time template context is always empty, a
compiled header or body template render fails with an unknown-variable
error naming the template's first variable reference whenever it has one,
and renders successfully (to the quote-trimmed static text) exactly when
it has none. -/
theorem c9_empty_context_render (t : Template) :
    (StringOrTemplate.from_ast_template t).execute =
      match t.firstVariable with
      | some v => .error (.unknownVariable v)
      | none => .ok (possibly_trim_surrounding_quotes t.encoded) := by
  cases h : t.firstVariable with
  | some v =>
    have hany : t.elements.any TemplateElement.isExpr = true := by
      by_contra hc
      rw [Bool.not_eq_true] at hc
      rw [← findSome_varName_none_iff] at hc
      simp [Template.firstVariable, hc] at h
    simp only [StringOrTemplate.from_ast_template, hany, if_true]
    simpa [StringOrTemplate.execute, executeTemplate] using
      executeElems_empty_ctx_err t.elements v h ""
  | none =>
    have hany : t.elements.any TemplateElement.isExpr = false := by
      rw [← findSome_varName_none_iff]
      exact h
    simp [StringOrTemplate.from_ast_template, hany, StringOrTemplate.execute]

/-- Under a no-panic hypothesis the assert loop always yields a boolean. -/
theorem matchesAux_isSome (req : Request) (l : List Assert)
    (h : ∀ a ∈ l, (a.apply req).isSome) : (matchesAux req l).isSome := by
  induction l with
  | nil => simp [matchesAux]
  | cons a rest ih =>
    have ha := h a (by simp)
    cases hap : a.apply req with
    | none => simp [hap] at ha
    | some r =>
      cases r with
      | error er => simp [matchesAux, hap]
      | ok b =>
        cases b with
        | true =>
          simp only [matchesAux, hap]
          exact ih (fun a ha => h a (by simp [ha]))
        | false => simp [matchesAux, hap]

/-- Under a no-panic hypothesis the assert loop yields `true` exactly when
every assert evaluated to `Ok(true)`. -/
theorem matchesAux_true_iff (req : Request) (l : List Assert)
    (h : ∀ a ∈ l, (a.apply req).isSome) :
    matchesAux req l = some true ↔ ∀ a ∈ l, a.apply req = some (.ok true) := by
  induction l with
  | nil => simp [matchesAux]
  | cons a rest ih =>
    have ha := h a (by simp)
    cases hap : a.apply req with
    | none => simp [hap] at ha
    | some r =>
      cases r with
      | error er => simp [matchesAux, hap]
      | ok b =>
        cases b with
        | true =>
          simp only [matchesAux, hap]
          rw [ih (fun a ha => h a (by simp [ha]))]
          simp [hap]
        | false => simp [matchesAux, hap]

/-- C3: under evaluation without panics, an entry matches exactly when
every one of its asserts evaluates to `Ok(true)`; an assert that yields
`Ok(false)` or an error makes the entry not match; and a non-matching
entry is simply skipped by the per-route scan (no error reaches the
client at matching time). -/
theorem c3_entry_matching (e : Entry) (req : Request)
    (h : ∀ a ∈ e.asserts, (a.apply req).isSome) :
    (e.matches req = some true ↔ ∀ a ∈ e.asserts, a.apply req = some (.ok true)) ∧
    (∀ a ∈ e.asserts,
      (a.apply req = some (.ok false) ∨ ∃ er, a.apply req = some (.error er)) →
      e.matches req = some false) ∧
    (∀ rest, e.matches req = some false →
      serve_bucket (e :: rest) req = serve_bucket rest req) := by
  refine ⟨matchesAux_true_iff req e.asserts h, ?_, ?_⟩
  · intro a ha hbad
    have hnot : ¬ e.matches req = some true := by
      rw [Entry.matches, matchesAux_true_iff req e.asserts h]
      intro hall
      have := hall a ha
      rcases hbad with hb | ⟨er, hb⟩ <;> rw [hb] at this <;> simp at this
    have hsome := matchesAux_isSome req e.asserts h
    rcases Option.isSome_iff_exists.mp hsome with ⟨b, hb⟩
    cases b with
    | true => exact absurd hb hnot
    | false => exact hb
  · intro rest hm
    simp [serve_bucket, hm]

/-- A concrete entry whose single assert requires header x-foo to equal
"bar". -/
def headerAssertEntry : Entry :=
  ⟨"/hello", "GET", [⟨.header "x-foo", .equal (.str "bar"), false⟩], 200, [], none⟩

/-- C3 witness: the matching characterization evaluated at a concrete
entry and request — `sampleReq` carries header x-foo: bar, so the entry
matches. -/
theorem c3_entry_matching_witness : headerAssertEntry.matches sampleReq = some true :=
  (c3_entry_matching headerAssertEntry sampleReq (by decide)).1.mpr (by decide)

/-- Spec-side first header-rendering failure: the displayed message of the
first header whose template fails to execute or whose rendered value is
not a valid header value. -/
def headers_first_error (hs : List (String × StringOrTemplate)) : Option String :=
  hs.findSome? (fun kv =>
    match kv.2.execute with
    | .error te => some ("internal error: " ++ te.message)
    | .ok s =>
      if is_valid_header_value s then none
      else some ("internal error: " ++ "failed to parse header value"))

/-- Spec-side rendered header list (meaningful when no header fails). -/
def rendered_headers (hs : List (String × StringOrTemplate)) : List (String × String) :=
  hs.map (fun kv => (kv.1, match kv.2.execute with | .ok s => s | .error _ => ""))

/-- The header-rendering loop fails with the first failing header's
message, and succeeds with the rendered list when no header fails. -/
theorem render_headers_spec (hs : List (String × StringOrTemplate)) :
    (∀ m, headers_first_error hs = some m → render_headers hs = .error m) ∧
    (headers_first_error hs = none → render_headers hs = .ok (rendered_headers hs)) := by
  induction hs with
  | nil => simp [headers_first_error, render_headers, rendered_headers]
  | cons kv rest ih =>
    obtain ⟨k, v⟩ := kv
    cases hv : v.execute with
    | error te =>
      have hfe : headers_first_error ((k, v) :: rest) =
          some ("internal error: " ++ te.message) := by
        simp only [headers_first_error, List.findSome?_cons, hv]
      constructor
      · intro m hm
        rw [hfe] at hm
        have hm2 := Option.some.inj hm
        simp only [render_headers, hv, ← hm2]
      · intro hm
        rw [hfe] at hm
        exact Option.noConfusion hm
    | ok s =>
      by_cases hval : is_valid_header_value s = true
      · have hfe : headers_first_error ((k, v) :: rest) = headers_first_error rest := by
          simp only [headers_first_error, List.findSome?_cons, hv, hval, if_true]
        constructor
        · intro m hm
          rw [hfe] at hm
          simp only [render_headers, hv, hval, if_true, ih.1 m hm, Except.map]
        · intro hm
          rw [hfe] at hm
          simp only [render_headers, hv, hval, if_true, ih.2 hm, Except.map,
            rendered_headers, List.map_cons]
      · have hval2 : is_valid_header_value s = false := by
          simpa using hval
        have hfe : headers_first_error ((k, v) :: rest) =
            some ("internal error: " ++ "failed to parse header value") := by
          simp only [headers_first_error, List.findSome?_cons, hv, hval2,
            Bool.false_eq_true, if_false]
        constructor
        · intro m hm
          rw [hfe] at hm
          have hm2 := Option.some.inj hm
          simp only [render_headers, hv, hval2, Bool.false_eq_true, if_false, ← hm2]
        · intro hm
          rw [hfe] at hm
          exact Option.noConfusion hm

/-- C4 (amended): rendering a matched entry's response yields a terminal
500 with empty headers and a plain-text "template error: ..." body when a
header template fails to execute, when a rendered header value is not a
valid HTTP header value, or when the body template fails (discarding any
rendered headers); when every header renders to a valid value and the
body (if any) renders, the response is the compiled status code, the
rendered headers, and the rendered (or empty) body. -/
theorem c4_render_amended (e : Entry) (req : Request) :
    (∀ m, headers_first_error e.headers = some m →
      e.handler req = (500, [], "template error: " ++ m)) ∧
    (headers_first_error e.headers = none →
      match e.body with
      | none => e.handler req = (e.status_code, rendered_headers e.headers, "")
      | some b =>
        (∀ te, b.execute = .error te →
          e.handler req = (500, [], "template error: " ++ te.message)) ∧
        (∀ s, b.execute = .ok s →
          e.handler req = (e.status_code, rendered_headers e.headers, s))) := by
  constructor
  · intro m hm
    simp [Entry.handler, (render_headers_spec e.headers).1 m hm]
  · intro hm
    have hok := (render_headers_spec e.headers).2 hm
    cases hb : e.body with
    | none => simp [Entry.handler, hok, hb]
    | some b =>
      constructor
      · intro te hte
        simp [Entry.handler, hok, hb, hte]
      · intro s hs
        simp [Entry.handler, hok, hb, hs]

/-- C4 counterexample: an entry whose only header template is the static
string "a\nb" renders every template successfully, yet the handler does
not answer with the compiled status and rendered headers: the rendered
value is not a valid HTTP header value, so the handler answers 500 with
empty headers — the claim's "all templates succeed" case does not hold of
the code. -/
theorem c4_render_counterexample :
    (StringOrTemplate.string "a\nb").execute = .ok "a\nb" ∧
    Entry.handler ⟨"/x", "GET", [], 200, [("x-h", .string "a\nb")], none⟩ sampleReq =
      (500, [], "template error: internal error: failed to parse header value") ∧
    Entry.handler ⟨"/x", "GET", [], 200, [("x-h", .string "a\nb")], none⟩ sampleReq ≠
      (200, [("x-h", "a\nb")], "") := by
  refine ⟨rfl, by decide, by decide⟩

/-- C4 witness: the amended rendering contract evaluated at a concrete
entry whose header template references a variable — the handler answers
500 with the unknown-variable message. -/
theorem c4_render_amended_witness :
    Entry.handler ⟨"/x", "GET", [], 200, [("h", .template ⟨none, [.expr "x"]⟩)], none⟩
      sampleReq = (500, [], "template error: internal error: unknown variable: x") :=
  (c4_render_amended ⟨"/x", "GET", [], 200, [("h", .template ⟨none, [.expr "x"]⟩)], none⟩
    sampleReq).1 "internal error: unknown variable: x" rfl


/-- Updating the bucket stored under one key commutes with key lookup. -/
theorem find?_key_map_update {β : Type} (tbl : List ((String × String) × β))
    (key k : String × String) (g : β → β) :
    (tbl.map (fun kv => if kv.1 = key then (kv.1, g kv.2) else kv)).find?
        (fun kv => decide (kv.1 = k)) =
      (tbl.find? (fun kv => decide (kv.1 = k))).map
        (fun kv => if kv.1 = key then (kv.1, g kv.2) else kv) := by
  induction tbl with
  | nil => rfl
  | cons kv t ih =>
    have hh : ((if kv.1 = key then (kv.1, g kv.2) else kv) : (String × String) × β).1
        = kv.1 := by
      by_cases h2 : kv.1 = key <;> simp [h2]
    by_cases h : kv.1 = k
    · rw [List.map_cons, List.find?_cons_of_pos _ (by rw [hh, h]; simp),
        List.find?_cons_of_pos _ (by rw [h]; simp)]
      rfl
    · rw [List.map_cons, List.find?_cons_of_neg _ (by rw [hh]; simp [h]),
        List.find?_cons_of_neg _ (by simp [h]), ih]

/-- Key lookup after one `insert_entry` step: the inserted entry lands at
the end of its own key's bucket and leaves every other key unchanged. -/
theorem lookup_insert (tbl : List ((String × String) × List Entry)) (e : Entry)
    (k : String × String) :
    lookup_bucket (insert_entry tbl e) k =
      if routeKey e = k then
        match lookup_bucket tbl k with
        | some l => some (l ++ [e])
        | none => some [e]
      else lookup_bucket tbl k := by
  by_cases hin : tbl.any (fun kv => decide (kv.1 = routeKey e)) = true
  · have hmap : insert_entry tbl e =
        tbl.map (fun kv => if kv.1 = routeKey e then (kv.1, kv.2 ++ [e]) else kv) := by
      simp only [insert_entry, hin, if_true]
    rw [hmap]
    unfold lookup_bucket
    rw [find?_key_map_update tbl (routeKey e) k (fun l => l ++ [e])]
    cases hf : tbl.find? (fun kv => decide (kv.1 = k)) with
    | none =>
      by_cases hk : routeKey e = k
      · exfalso
        rcases List.any_eq_true.mp hin with ⟨kv, hkv, hkv2⟩
        rw [List.find?_eq_none] at hf
        have hkv3 : kv.1 = routeKey e := by simpa using hkv2
        exact hf kv hkv (by simp [hkv3, hk])
      · simp [hk]
    | some kv =>
      have hkv1 : kv.1 = k := by
        have := List.find?_some hf
        simpa using this
      by_cases hk : routeKey e = k
      · have h1 : kv.1 = routeKey e := by rw [hkv1, hk]
        simp [hk, h1]
      · have h1 : ¬ kv.1 = routeKey e := by
          intro hc
          exact hk (by rw [← hc, hkv1])
        simp [hk, h1]
  · have hin2 : tbl.any (fun kv => decide (kv.1 = routeKey e)) = false := by
      cases hx : tbl.any (fun kv => decide (kv.1 = routeKey e)) with
      | false => rfl
      | true => exact absurd hx hin
    have happ : insert_entry tbl e = tbl ++ [(routeKey e, [e])] := by
      simp only [insert_entry, hin2, Bool.false_eq_true, if_false]
    rw [happ]
    unfold lookup_bucket
    rw [List.find?_append]
    have hnone : tbl.find? (fun kv => decide (kv.1 = routeKey e)) = none := by
      rw [List.find?_eq_none]
      intro kv hkv
      rw [List.any_eq_false] at hin2
      exact hin2 kv hkv
    by_cases hk : routeKey e = k
    · have hzero : tbl.find? (fun kv => decide (kv.1 = k)) = none := by
        rw [← hk]; exact hnone
      simp [hzero, hk]
    · have hsing : ([((routeKey e, [e]) : (String × String) × List Entry)].find?
          (fun kv => decide (kv.1 = k))) = none := by
        simp [hk]
      rw [hsing]
      simp [hk]



/-- Key lookup after folding entries into an accumulator table: the bucket
is the accumulator's bucket extended by the entries with that key, in
declaration order. -/
theorem lookup_build_aux (es : List Entry) (tbl : List ((String × String) × List Entry))
    (k : String × String) :
    lookup_bucket (es.foldl insert_entry tbl) k =
      match lookup_bucket tbl k, es.filter (fun e => decide (routeKey e = k)) with
      | some l, fl => some (l ++ fl)
      | none, [] => none
      | none, f :: fl => some (f :: fl) := by
  induction es generalizing tbl with
  | nil =>
    cases h : lookup_bucket tbl k <;> simp [h]
  | cons e es ih =>
    rw [List.foldl_cons, ih, lookup_insert]
    by_cases hk : routeKey e = k
    · have hd : decide (routeKey e = k) = true := by simp [hk]
      simp only [hk, if_true, List.filter_cons, hd]
      cases h : lookup_bucket tbl k with
      | some l => simp [List.append_assoc]
      | none => simp
    · have hd : decide (routeKey e = k) = false := by simp [hk]
      simp only [hk, if_false, List.filter_cons, hd]
      cases h : lookup_bucket tbl k <;> simp

/-- The dispatch table built by `compile_ast` maps a key to exactly the
entries declared with that (path, method), in declaration order, and has
no bucket for keys with no entries. -/
theorem lookup_build (entries : List Entry) (k : String × String) :
    lookup_bucket (build_table entries) k =
      match entries.filter (fun e => decide (routeKey e = k)) with
      | [] => none
      | f :: fl => some (f :: fl) := by
  rw [build_table, lookup_build_aux]
  have h0 : lookup_bucket [] k = none := rfl
  rw [h0]
  cases entries.filter (fun e => decide (routeKey e = k)) <;> rfl

/-- Under a no-panic hypothesis, scanning a bucket answers with the first
matching entry's rendered response, or 404 when none matches. -/
theorem serve_bucket_find (bucket : List Entry) (req : Request)
    (h : ∀ e ∈ bucket, (e.matches req).isSome) :
    serve_bucket bucket req =
      some (match bucket.find? (fun e => decide (e.matches req = some true)) with
        | some e => e.handler req
        | none => notFoundResponse) := by
  induction bucket with
  | nil => rfl
  | cons e rest ih =>
    have he := h e (by simp)
    cases hm : e.matches req with
    | none => rw [hm] at he; simp at he
    | some b =>
      cases b with
      | true =>
        rw [List.find?_cons_of_pos _ (by simp [hm])]
        simp [serve_bucket, hm]
      | false =>
        rw [List.find?_cons_of_neg _ (by simp [hm])]
        rw [serve_bucket, hm]
        exact ih (fun e he => h e (by simp [he]))

/-- C2: for every request, dispatch scans the entries declared for the
request's (path, method) pair in declaration order and answers with the
first fully matching entry's rendered response; when the pair has no
bucket, and when every entry of the bucket fails to match, the answer is
status 404 with empty headers and empty body. -/
theorem c2_dispatch_first_match (entries : List Entry) (req : Request)
    (h : ∀ e ∈ entries_for entries req, (e.matches req).isSome) :
    dispatch entries req =
      some (match (entries_for entries req).find?
          (fun e => decide (e.matches req = some true)) with
        | some e => e.handler req
        | none => notFoundResponse) := by
  rw [dispatch, lookup_build]
  have heq : entries_for entries req =
      entries.filter (fun e => decide (routeKey e = (req.path, req.method))) := rfl
  cases hfl : entries.filter (fun e => decide (routeKey e = (req.path, req.method))) with
  | nil =>
    rw [heq, hfl]
    rfl
  | cons f fl =>
    rw [heq, hfl]
    exact serve_bucket_find (f :: fl) req (by rw [heq, hfl] at h; exact h)


/-- An entry for GET /hello whose assert requires x-foo: qux. -/
def c2EntryFail : Entry :=
  ⟨"/hello", "GET", [⟨.header "x-foo", .equal (.str "qux"), false⟩], 201, [],
    some (.string "one")⟩

/-- An assert-free default entry for GET /hello. -/
def c2EntryDefault : Entry :=
  ⟨"/hello", "GET", [], 200, [], some (.string "two")⟩

/-- C2 witness: the dispatch contract evaluated at two concrete entries
for GET /hello and a request carrying x-foo: bar — the first entry's
assert fails, so the second, assert-free entry is served. -/
theorem c2_dispatch_first_match_witness :
    dispatch [c2EntryFail, c2EntryDefault] sampleReq = some (200, [], "two") := by
  have h := c2_dispatch_first_match [c2EntryFail, c2EntryDefault] sampleReq (by decide)
  rw [h]
  decide


/-- Consuming with a predicate splits the input at the first character
failing the predicate, advancing the position over the consumed prefix. -/
theorem read_while_list_split (p : Char → Bool) (l1 : List Char) (c : Char)
    (t : List Char) (pos : Pos) (h1 : ∀ x ∈ l1, p x = true) (h2 : p c = false) :
    read_while_list p (l1 ++ c :: t) pos = (l1, c :: t, List.foldl advancePos pos l1) := by
  induction l1 generalizing pos with
  | nil => simp [read_while_list, h2]
  | cons d l1 ih =>
    have hd : p d = true := h1 d (by simp)
    simp only [List.cons_append, read_while_list, hd, if_true, List.foldl_cons,
      List.append_eq]
    rw [ih (advancePos pos d) (fun x hx => h1 x (by simp [hx]))]

/-- C5: in `section_name`, an empty bracket pair fails with a parse error
flagged recoverable (carrying the position of the opening bracket), while
in `request_section` a bracketed non-empty alphanumeric name other than
Asserts or Captures fails non-recoverably with a `ResponseSectionName`
cause carrying the name and the source position of the name itself (one
column past the opening bracket), independently of the section-body
parsers. -/
theorem c5_section_name_errors (rest : List Char) (st : Pos) (name : String)
    (tail : List Char) (capturesBody assertsBody : Reader → Except PError Reader) :
    (section_name ⟨'[' :: ']' :: rest, st⟩ =
      .error ⟨st, true, .Expecting "a valid section name"⟩) ∧
    (name.data ≠ [] → (∀ c ∈ name.data, c.isAlphanum = true) →
      name ≠ "Asserts" → name ≠ "Captures" →
      request_section_core capturesBody assertsBody
        ⟨'[' :: (name.data ++ ']' :: '\n' :: tail), st⟩ =
        .error ⟨⟨st.line, st.column + 1⟩, false, .ResponseSectionName name⟩) := by
  constructor
  · rfl
  · intro hne hall hA hC
    have hmk : String.mk name.data = name := by cases name; rfl
    have hsplit := read_while_list_split Char.isAlphanum name.data ']' ('\n' :: tail)
      (advancePos st '[') hall (by decide)
    have hrw : read_while Char.isAlphanum
        ⟨name.data ++ ']' :: '\n' :: tail, advancePos st '['⟩ =
        (name.data, ⟨']' :: '\n' :: tail,
          List.foldl advancePos (advancePos st '[') name.data⟩) := by
      unfold read_while
      rw [hsplit]
    have ht1 : try_literal "[" ⟨'[' :: (name.data ++ ']' :: '\n' :: tail), st⟩ =
        .ok ⟨name.data ++ ']' :: '\n' :: tail, advancePos st '['⟩ := rfl
    have hsn : section_name ⟨'[' :: (name.data ++ ']' :: '\n' :: tail), st⟩ =
        .ok (name, ⟨'\n' :: tail,
          advancePos (List.foldl advancePos (advancePos st '[') name.data) ']'⟩) := by
      unfold section_name
      rw [ht1]
      simp only
      rw [hrw]
      simp only
      rw [if_neg hne]
      rw [hmk]
      rfl
    have h01 : skip_spaces (optional_line_terminators
        ⟨'[' :: (name.data ++ ']' :: '\n' :: tail), st⟩) =
        ⟨'[' :: (name.data ++ ']' :: '\n' :: tail), st⟩ := rfl
    have hlt : line_terminator ⟨'\n' :: tail,
        advancePos (List.foldl advancePos (advancePos st '[') name.data) ']'⟩ =
        .ok ⟨tail, advancePos
          (advancePos (List.foldl advancePos (advancePos st '[') name.data) ']') '\n'⟩ := rfl
    unfold request_section_core
    simp only [h01, hsn, hlt]
    rw [if_neg hC, if_neg hA]


/-- C5 witness: parsing a section named Foo at the start of input aborts
non-recoverably with the descriptive cause and the name's position,
line 1 column 2. -/
theorem c5_section_name_errors_witness :
    request_section_core (fun r => .ok r) (fun r => .ok r)
      ⟨'[' :: ("Foo".data ++ ']' :: '\n' :: []), ⟨1, 1⟩⟩ =
      .error ⟨⟨1, 2⟩, false, .ResponseSectionName "Foo"⟩ :=
  (c5_section_name_errors [] ⟨1, 1⟩ "Foo" [] (fun r => .ok r) (fun r => .ok r)).2
    (by decide) (by decide) (by decide) (by decide)

end Impostor
